import Mathlib

/-!
Verification development for the LimeTV content-aggregation and subtitle
pipeline.  The definitions below are a shallow embedding of
`src/services/opensubtitles.ts` and `src/services/tmdb.ts`: JavaScript
strings are modelled as `List Char` (or `String` where only equality
matters), JavaScript numbers arising from integer parsing as `ℤ`, scores
(which mix integers with a fractional popularity bonus) as `ℚ`, and
network / storage effects as explicit oracle records.  Fallible remote
calls are modelled with `Except`.
-/

set_option maxRecDepth 4000

namespace LimeTV

/-! ## JavaScript string primitives -/

/-- `hay.includes(needle)` on JavaScript strings, with strings as `List Char`. -/
def jsIncludes (hay needle : List Char) : Bool :=
  decide (needle <:+: hay)

/-- `s.toLowerCase()`; release names in this code base are ASCII, for which
`Char.toLower` agrees with the JavaScript conversion. -/
def lowerStr (s : List Char) : List Char :=
  s.map Char.toLower

/-- Value of a digit character. -/
def digitVal (c : Char) : ℕ := c.toNat - 48

/-- Accumulate the leading run of decimal digits; `none` when there is no digit,
mirroring `parseInt` producing `NaN`. -/
def leadingDigitsVal (cs : List Char) : Option ℕ :=
  let ds := cs.takeWhile Char.isDigit
  if ds.isEmpty then none
  else some (ds.foldl (fun a c => a * 10 + digitVal c) 0)

/-- JavaScript `parseInt` (base 10) on a string: skip leading whitespace, read an
optional sign, then the leading digit run; `none` models `NaN`. -/
def jsParseInt (cs : List Char) : Option ℤ :=
  match cs.dropWhile Char.isWhitespace with
  | '-' :: rest => (leadingDigitsVal rest).map (fun n => -(n : ℤ))
  | '+' :: rest => (leadingDigitsVal rest).map (fun n => (n : ℤ))
  | other => (leadingDigitsVal other).map (fun n => (n : ℤ))

/-- `parseInt(s) || 0`: the `NaN` case falls back to `0` (and a parsed `0` is
itself falsy, so the fallback is the identity there). -/
def jsParseIntOr0 (cs : List Char) : ℤ :=
  (jsParseInt cs).getD 0

/-! ## Subtitle candidate model (`opensubtitles.ts`) -/

/-- One raw search result from the subtitle provider
(interface `OpenSubtitlesResponse`). -/
structure OpenSubtitlesResponse where
  SubDownloadLink : List Char
  MovieName : List Char
  LanguageName : List Char := []
  SubFormat : List Char := []
  SubDownloadsCnt : List Char
  SeriesSeason : Option (List Char) := none
  SeriesEpisode : Option (List Char) := none
deriving DecidableEq, Inhabited

/-- Sort strategies (`SubtitleSortStrategy`). -/
inductive SubtitleSortStrategy where
  | smart
  | popular
  | recent
deriving DecidableEq, Inhabited

/-- Media kind used by the subtitle search parameters. -/
inductive SubMediaType where
  | movie
  | tv
deriving DecidableEq, Inhabited

/-- `SubtitleSearchParams`.  `sortBy := none` models an absent field, which the
destructuring default turns into `smart`. -/
structure SubtitleSearchParams where
  tmdbId : ℤ
  language : List Char
  mediaType : SubMediaType
  season : Option ℕ := none
  episode : Option ℕ := none
  sortBy : Option SubtitleSortStrategy := none
deriving DecidableEq, Inhabited

/-- `SubtitleResult`, the tagged success/failure record handed to the caller. -/
structure SubtitleResult where
  success : Bool
  srtContent : Option String := none
  error : Option String := none
  totalAvailable : Option ℕ := none
  currentIndex : Option ℕ := none
  releaseName : Option (List Char) := none
deriving DecidableEq, Inhabited

/-! ## Scoring (`scoreSubtitleForStreaming`) -/

def webdlTok : List Char := "web-dl".data
def webripTok : List Char := "webrip".data
def webdotTok : List Char := "web.".data
def amznTok : List Char := "amzn".data
def nfTok : List Char := "nf".data
def dsnpTok : List Char := "dsnp".data
def blurayTok : List Char := "bluray".data
def brripTok : List Char := "brrip".data
def bdripTok : List Char := "bdrip".data
def dvdripTok : List Char := "dvdrip".data
def hdtvTok : List Char := "hdtv".data
def hiTok : List Char := ".hi.".data
def ccTok : List Char := ".cc.".data

/-- `parseInt(subtitle.SubDownloadsCnt) || 0`. -/
def downloadsOf (c : OpenSubtitlesResponse) : ℤ :=
  jsParseIntOr0 c.SubDownloadsCnt

/-- The release-name part of the score: every summand except the popularity
bonus, in source order (the source adds the `.hi.`/`.cc.` bonus after the
popularity bonus; rational addition commutes, so the split is exact, see
`scoreSubtitleForStreaming_split`). -/
def releasePoints (name : List Char) : ℤ :=
  (if jsIncludes name webdlTok then 100 else 0)
  + (if jsIncludes name webripTok then 90 else 0)
  + (if jsIncludes name webdotTok then 85 else 0)
  + (if jsIncludes name amznTok || jsIncludes name nfTok || jsIncludes name dsnpTok then 80 else 0)
  + (if jsIncludes name blurayTok || jsIncludes name brripTok || jsIncludes name bdripTok then 70 else 0)
  + (if jsIncludes name dvdripTok then 60 else 0)
  - (if jsIncludes name hdtvTok then 100 else 0)
  + (if jsIncludes name hiTok || jsIncludes name ccTok then 5 else 0)

/-- `Math.min(downloads / 10000, 30)` with JavaScript number division modelled
exactly in `ℚ`. -/
def popularityBonus (c : OpenSubtitlesResponse) : ℚ :=
  min ((downloadsOf c : ℚ) / 10000) 30

/-- `scoreSubtitleForStreaming`: release-name signals plus the capped
popularity bonus. -/
def scoreSubtitleForStreaming (c : OpenSubtitlesResponse) : ℚ :=
  (releasePoints (lowerStr c.MovieName) : ℚ) + popularityBonus c

/-! ## Sorting (`sortSubtitles`)

JavaScript `Array.prototype.sort` is a stable sort; for a comparator that is a
total preorder the stable sorted permutation is unique, so we model it with
`List.insertionSort`, which is stable. -/

def sortSubtitles (results : List OpenSubtitlesResponse)
    (strategy : SubtitleSortStrategy) : List OpenSubtitlesResponse :=
  match strategy with
  | .popular =>
      List.insertionSort (fun a b => downloadsOf b ≤ downloadsOf a) results
  | .recent => results
  | .smart =>
      List.insertionSort
        (fun a b => scoreSubtitleForStreaming b ≤ scoreSubtitleForStreaming a) results

/-! ## Search (`searchSubtitles`) and the subtitle environment -/

/-- Decimal rendering of a number interpolated into a template string. -/
def natChars (n : ℕ) : List Char := (toString n).data

/-- The ordered path segments pushed by `searchSubtitles`: optional
`episode-N`, then `imdbid-<id>` (with a leading `tt` stripped), optional
`season-N`, then `sublanguageid-<lang>`. -/
def buildSearchParts (imdbId language : List Char)
    (season episode : Option ℕ) : List (List Char) :=
  let cleanImdbId := if "tt".data <+: imdbId then imdbId.drop 2 else imdbId
  (match episode with
   | some e => [ "episode-".data ++ natChars e ]
   | none => [])
  ++ [ "imdbid-".data ++ cleanImdbId ]
  ++ (match season with
      | some s => [ "season-".data ++ natChars s ]
      | none => [])
  ++ [ "sublanguageid-".data ++ language ]

/-- `/search/${parts.join('/')}`. -/
def searchEndpoint (imdbId language : List Char)
    (season episode : Option ℕ) : List Char :=
  "/search/".data ++ List.intercalate "/".data (buildSearchParts imdbId language season episode)

/-- Oracle for the subtitle pipeline's effects: the external-id lookup
(`getImdbId`, which itself never throws and yields `null` on failure), the
search request keyed by endpoint (`.ok none` models a 200 response whose body
is not an array, `.error` a transport/HTTP failure), and the raw binary
download+gunzip step keyed by download link (`.error msg` models a thrown
failure with message `msg`). -/
structure SubtitleEnv where
  imdbLookup : Option (List Char)
  searchResp : List Char → Except Unit (Option (List OpenSubtitlesResponse))
  download : List Char → Except String String

/-- `searchSubtitles`: builds the endpoint, returns the array body, and turns
any request failure or non-array body into an empty candidate list. -/
def searchSubtitles (env : SubtitleEnv) (imdbId language : List Char)
    (season episode : Option ℕ) : List OpenSubtitlesResponse :=
  match env.searchResp (searchEndpoint imdbId language season episode) with
  | .ok (some arr) => arr
  | .ok none => []
  | .error _ => []

/-- `downloadAndDecompressSubtitle`: wraps any underlying failure in a
`Failed to download subtitle: ...` error, which `getSubtitles` catches. -/
def downloadAndDecompressSubtitle (env : SubtitleEnv) (downloadUrl : List Char) :
    Except String String :=
  match env.download downloadUrl with
  | .ok srt => .ok srt
  | .error msg => .error ("Failed to download subtitle: " ++ msg)

/-! ## Top-level orchestration (`getSubtitles`) -/

/-- `getSubtitles(params, subtitleIndex = 0)`.  Every branch yields a tagged
`SubtitleResult`; the `.error` branch of the download models the one thrown
fault, converted by the surrounding `catch` into the failure shape. -/
def getSubtitles (env : SubtitleEnv) (params : SubtitleSearchParams)
    (subtitleIndex : ℕ := 0) : SubtitleResult :=
  let sortBy := params.sortBy.getD .smart
  match env.imdbLookup with
  | none =>
      { success := false, error := some "Could not find IMDB ID for this title" }
  | some imdbId =>
      let results := searchSubtitles env imdbId params.language params.season params.episode
      if results.length = 0 then
        { success := false, error := some "No subtitles found for this title" }
      else
        let sortedResults := sortSubtitles results sortBy
        let actualIndex := min subtitleIndex (sortedResults.length - 1)
        let selectedSubtitle := sortedResults.getD actualIndex default
        if selectedSubtitle.SubDownloadLink = [] then
          { success := false, error := some "No download link available" }
        else
          match downloadAndDecompressSubtitle env selectedSubtitle.SubDownloadLink with
          | .error msg => { success := false, error := some msg }
          | .ok srtContent =>
              { success := true
                srtContent := some srtContent
                totalAvailable := some sortedResults.length
                currentIndex := some actualIndex
                releaseName := some selectedSubtitle.MovieName }

/-! ## Catalog model (`tmdb.ts`)

Raw provider items are loosely typed JSON objects; the fields touched by the
service are modelled as optional, with JavaScript truthiness on strings made
explicit (`undefined` and the empty string are both falsy). -/

/-- A raw catalog entry as consumed by `tmdb.ts` (`Movie` plus the raw fields
it inspects). -/
structure TmdbItem where
  id : ℤ := 0
  poster_path : Option String := none
  backdrop_path : Option String := none
  media_type : Option String := none
  title : Option String := none
  name : Option String := none
  vote_average : Option ℚ := none
deriving DecidableEq, Inhabited

/-- JavaScript truthiness of an optional string field. -/
def truthy : Option String → Bool
  | none => false
  | some s => s ≠ ""

/-- `item.vote_average > 6` (an absent field compares false). -/
def voteGt6 : Option ℚ → Bool
  | none => false
  | some q => 6 < q

/-- The validity test of `filterValidItems`: truthy poster and backdrop, and a
recognized media type or a truthy title/name. -/
def isValidItem (item : TmdbItem) : Bool :=
  truthy item.poster_path
  && truthy item.backdrop_path
  && (item.media_type == some "movie" || item.media_type == some "tv"
      || truthy item.title || truthy item.name)

/-- `filterValidItems`, parameterized by the configured page size
`ITEMS_PER_CATEGORY` (its numeric value lives in `constants/config`, outside
the excerpted sources). -/
def filterValidItems (pageSize : ℕ) (items : List TmdbItem) : List TmdbItem :=
  (items.filter isValidItem).take pageSize

/-- The first-tier hero test of `findBestHeroItem`: good images, rating above
6, and a recognized media type or a truthy title/name. -/
def heroTier1 (item : TmdbItem) : Bool :=
  truthy item.backdrop_path
  && truthy item.poster_path
  && voteGt6 item.vote_average
  && (item.media_type == some "movie" || item.media_type == some "tv"
      || truthy item.title || truthy item.name)

/-- The fallback hero test: any item with backdrop and poster. -/
def heroTier2 (item : TmdbItem) : Bool :=
  truthy item.backdrop_path && truthy item.poster_path

/-- `findBestHeroItem`: `validHero || fallbackHero || items[0] || null`. -/
def findBestHeroItem (items : List TmdbItem) : Option TmdbItem :=
  let validHero := items.find? heroTier1
  let fallbackHero := items.find? heroTier2
  (validHero.orElse fun _ => fallbackHero).orElse fun _ => items.head?

/-! ## Endpoint configuration and environment -/

/-- One configured feed: display title plus request url. -/
structure EndpointDef where
  title : String
  url : String
deriving DecidableEq, Inhabited

/-- The record returned by `getEndpoints(type)` (defined in
`constants/endpoints`, outside the excerpted sources, so the table itself is a
parameter of the model). -/
structure EndpointConfig where
  hero : String
  priority : List EndpointDef
  lazyFeeds : List EndpointDef
deriving DecidableEq, Inhabited

/-- Tab kinds accepted by `fetchContent`. -/
inductive MediaType where
  | all
  | movie
  | tv
deriving DecidableEq, Inhabited

/-- `Category`. -/
structure Category where
  title : String
  items : List TmdbItem
  loading : Bool
deriving DecidableEq, Inhabited

/-- `{ heroItem, categories }` as returned by `fetchContent`. -/
structure HomeModel where
  heroItem : Option TmdbItem
  categories : List Category
deriving DecidableEq, Inhabited

/-- Oracle for the catalog service's effects and configuration: the endpoint
table and page-size constants (from the un-excerpted `constants` modules), the
saved-items store (`AsyncStorage.getItem` plus `JSON.parse`, with `.error`
covering a throwing read or unparseable JSON and `.ok none` an absent key),
per-id detail lookups (`.ok none` models a 200 response with a falsy body),
and list feeds keyed by url (yielding `response.data.results`). -/
structure TmdbEnv where
  getEndpoints : MediaType → EndpointConfig
  pageSize : ℕ
  myListJson : Except Unit (Option (List ℤ))
  movieLookup : ℤ → Except Unit (Option TmdbItem)
  tvLookup : ℤ → Except Unit (Option TmdbItem)
  feed : String → Except Unit (List TmdbItem)

/-- `Promise.all` over homogeneous requests: succeeds with all results when
every member succeeds, otherwise fails. -/
def promiseAll {α : Type} : List (Except Unit α) → Except Unit (List α)
  | [] => .ok []
  | x :: xs =>
      match x with
      | .error e => .error e
      | .ok a =>
          match promiseAll xs with
          | .error e => .error e
          | .ok rest => .ok (a :: rest)

/-! ## Saved-items resolution (`fetchMyList`) -/

/-- The per-identifier probe inside `fetchMyList`: try `/movie/{id}`; on a
thrown failure try `/tv/{id}`, remapping `name` onto `title`; a falsy body or
a second failure yields `null`. -/
def resolveSavedId (env : TmdbEnv) (id : ℤ) : Option TmdbItem :=
  match env.movieLookup id with
  | .ok (some m) => some { m with media_type := some "movie" }
  | .ok none => none
  | .error _ =>
      match env.tvLookup id with
      | .ok (some t) => some { t with title := t.name, media_type := some "tv" }
      | .ok none => none
      | .error _ => none

/-- `fetchMyList`: read and parse the saved-id list (any failure degrades to
`[]`), resolve each id, and keep the non-null results. -/
def fetchMyList (env : TmdbEnv) : List TmdbItem :=
  match env.myListJson with
  | .error _ => []
  | .ok none => []
  | .ok (some savedIds) => (savedIds.map (resolveSavedId env)).reduceOption

/-! ## Home aggregation (`fetchContent`, `fetchLazyCategories`) -/

/-- The category assembly block of `fetchContent`, applied to the successful
priority responses: first priority category, then a synthesized `My List`
category (only for the `all` tab with a non-empty saved-item resolution,
inserted with the resolved items as they are), then the remaining priority
categories, then one loading placeholder per lazy feed. -/
def assembledCategories (env : TmdbEnv) (type : MediaType)
    (categoryResponses : List (List TmdbItem)) : List Category :=
  let myListItems := fetchMyList env
  let priorityCategories : List Category :=
    ((env.getEndpoints type).priority.zip categoryResponses).map fun pr =>
      { title := pr.1.title
        items := filterValidItems env.pageSize pr.2
        loading := false }
  priorityCategories.take 1
    ++ (if 0 < myListItems.length ∧ type = MediaType.all then
          [{ title := "My List", items := myListItems, loading := false }]
        else [])
    ++ priorityCategories.drop 1
    ++ (env.getEndpoints type).lazyFeeds.map
        (fun ep => { title := ep.title, items := [], loading := true })

/-- `fetchContent(type)`: one `Promise.all` over the hero feed, the saved-item
resolution (which never rejects) and every priority feed; on success the hero
is selected from the hero feed and the categories assembled by
`assembledCategories`.  Any feed failure rethrows to the caller. -/
def fetchContent (env : TmdbEnv) (type : MediaType) : Except Unit HomeModel :=
  match env.feed (env.getEndpoints type).hero with
  | .error e => .error e
  | .ok heroResults =>
      match promiseAll ((env.getEndpoints type).priority.map (fun ep => env.feed ep.url)) with
      | .error e => .error e
      | .ok categoryResponses =>
          .ok { heroItem := findBestHeroItem heroResults
                categories := assembledCategories env type categoryResponses }

/-- `fetchLazyCategories(type)`: one `Promise.all` over the lazy feeds; any
failure degrades to `[]`. -/
def fetchLazyCategories (env : TmdbEnv) (type : MediaType) : List Category :=
  let config := env.getEndpoints type
  match promiseAll (config.lazyFeeds.map (fun ep => env.feed ep.url)) with
  | .error _ => []
  | .ok responses =>
      (config.lazyFeeds.zip responses).map fun pr =>
        { title := pr.1.title
          items := filterValidItems env.pageSize pr.2
          loading := false }

/-! ## General helper lemmas -/

theorem promiseAll_ok_length {α : Type} {xs : List (Except Unit α)} {rs : List α}
    (h : promiseAll xs = .ok rs) : rs.length = xs.length := by
  induction xs generalizing rs with
  | nil => simp only [promiseAll] at h; cases h; rfl
  | cons x xs ih =>
      simp only [promiseAll] at h
      cases x with
      | error e => cases h
      | ok a =>
          cases hrec : promiseAll xs with
          | error e => rw [hrec] at h; cases h
          | ok rest => rw [hrec] at h; cases h; simp [ih hrec]

theorem promiseAll_error_iff {α : Type} (xs : List (Except Unit α)) :
    promiseAll xs = .error () ↔ ∃ x ∈ xs, x = .error () := by
  induction xs with
  | nil => simp [promiseAll]
  | cons x xs ih =>
      cases x with
      | error e =>
          cases e
          simp [promiseAll]
      | ok a =>
          simp only [promiseAll]
          cases hrec : promiseAll xs with
          | error e =>
              cases e
              constructor
              · intro _
                obtain ⟨y, hy, hye⟩ := ih.mp hrec
                exact ⟨y, List.mem_cons_of_mem _ hy, hye⟩
              · intro _; rfl
          | ok rest =>
              constructor
              · intro h; cases h
              · rintro ⟨y, hy, rfl⟩
                rcases List.mem_cons.mp hy with h1 | h2
                · cases h1
                · rw [ih.mpr ⟨_, h2, rfl⟩] at hrec; cases hrec

theorem sortSubtitles_length (results : List OpenSubtitlesResponse)
    (strategy : SubtitleSortStrategy) :
    (sortSubtitles results strategy).length = results.length := by
  cases strategy <;> simp [sortSubtitles, List.length_insertionSort]

/-! ## C8: `filterValidItems` -/

/-- C8: for every input item list, `filterValidItems` keeps only entries with a
truthy poster and backdrop that are a recognized kind or carry a title/name,
and truncates to the configured page size; hence its output length is at most
the page size, every output item has a non-empty poster and backdrop
reference, and any entry failing the validity test is dropped. -/
theorem filterValidItems_spec (pageSize : ℕ) (items : List TmdbItem) :
    (filterValidItems pageSize items).length ≤ pageSize
    ∧ (∀ x ∈ filterValidItems pageSize items,
        truthy x.poster_path = true ∧ truthy x.backdrop_path = true
        ∧ (x.media_type = some "movie" ∨ x.media_type = some "tv"
            ∨ truthy x.title = true ∨ truthy x.name = true))
    ∧ (∀ x ∈ items, isValidItem x = false → x ∉ filterValidItems pageSize items) := by
  refine ⟨?_, ?_, ?_⟩
  · simp only [filterValidItems, List.length_take]
    exact min_le_left _ _
  · intro x hx
    have hx' : x ∈ (items.filter isValidItem) := List.mem_of_mem_take hx
    have hval : isValidItem x = true := (List.mem_filter.mp hx').2
    simp only [isValidItem, Bool.and_eq_true, Bool.or_eq_true, beq_iff_eq] at hval
    exact ⟨hval.1.1, hval.1.2, by tauto⟩
  · intro x _ hinv hmem
    have hx' : x ∈ (items.filter isValidItem) := List.mem_of_mem_take hmem
    have hval : isValidItem x = true := (List.mem_filter.mp hx').2
    rw [hinv] at hval
    cases hval

/-- C8 witness: a concrete run where an item lacking a poster is dropped and a
page size of 1 truncates the rest. -/
theorem filterValidItems_spec_witness :
    (filterValidItems 1
        [ { poster_path := some "p", backdrop_path := some "b", media_type := some "movie" },
          { poster_path := none, backdrop_path := some "b", media_type := some "movie" },
          { poster_path := some "p2", backdrop_path := some "b2", media_type := some "tv" } ]).length ≤ 1
    ∧ ({ poster_path := none, backdrop_path := some "b", media_type := some "movie" } : TmdbItem)
        ∉ filterValidItems 1
        [ { poster_path := some "p", backdrop_path := some "b", media_type := some "movie" },
          { poster_path := none, backdrop_path := some "b", media_type := some "movie" },
          { poster_path := some "p2", backdrop_path := some "b2", media_type := some "tv" } ] := by
  have h := filterValidItems_spec 1
    [ { poster_path := some "p", backdrop_path := some "b", media_type := some "movie" },
      { poster_path := none, backdrop_path := some "b", media_type := some "movie" },
      { poster_path := some "p2", backdrop_path := some "b2", media_type := some "tv" } ]
  exact ⟨h.1, h.2.2 _ (by simp) (by decide)⟩

/-! ## C9: subtitle search query construction -/

/-- C9: the search path strips a leading two-character `tt` from the external
id when present (and only then), joins segments in exactly the order
`episode-N` (only when an episode is given), `imdbid-<id>`, `season-N` (only
when a season is given), `sublanguageid-<lang>`, and any request failure
yields an empty candidate set. -/
theorem searchQuery_spec :
    (∀ (rest language : List Char) (s e : ℕ),
      buildSearchParts ("tt".data ++ rest) language (some s) (some e)
        = [ "episode-".data ++ natChars e, "imdbid-".data ++ rest,
            "season-".data ++ natChars s, "sublanguageid-".data ++ language ])
    ∧ (∀ (imdbId language : List Char) (s e : ℕ), ¬ ("tt".data <+: imdbId) →
      buildSearchParts imdbId language (some s) (some e)
        = [ "episode-".data ++ natChars e, "imdbid-".data ++ imdbId,
            "season-".data ++ natChars s, "sublanguageid-".data ++ language ])
    ∧ (∀ (imdbId language : List Char), ¬ ("tt".data <+: imdbId) →
      buildSearchParts imdbId language none none
        = [ "imdbid-".data ++ imdbId, "sublanguageid-".data ++ language ])
    ∧ (∀ (imdbId language : List Char) (s : ℕ), ¬ ("tt".data <+: imdbId) →
      buildSearchParts imdbId language (some s) none
        = [ "imdbid-".data ++ imdbId, "season-".data ++ natChars s,
            "sublanguageid-".data ++ language ])
    ∧ (∀ (imdbId language : List Char) (e : ℕ), ¬ ("tt".data <+: imdbId) →
      buildSearchParts imdbId language none (some e)
        = [ "episode-".data ++ natChars e, "imdbid-".data ++ imdbId,
            "sublanguageid-".data ++ language ])
    ∧ (∀ (env : SubtitleEnv) (imdbId language : List Char) (season episode : Option ℕ),
      env.searchResp (searchEndpoint imdbId language season episode) = .error () →
      searchSubtitles env imdbId language season episode = []) := by
  refine ⟨?_, ?_, ?_, ?_, ?_, ?_⟩
  · intro rest language s e
    simp [buildSearchParts, List.prefix_append, List.drop_left' (by rfl : ("tt".data).length = 2)]
  · intro imdbId language s e h
    simp [buildSearchParts, h]
  · intro imdbId language h
    simp [buildSearchParts, h]
  · intro imdbId language s h
    simp [buildSearchParts, h]
  · intro imdbId language e h
    simp [buildSearchParts, h]
  · intro env imdbId language season episode h
    simp [searchSubtitles, h]

/-- C9 witness: concrete runs exercising the stripped and unstripped id, each
season/episode combination, and the failure fallback. -/
theorem searchQuery_spec_witness :
    buildSearchParts "tt0944947".data "eng".data (some 1) (some 2)
      = [ "episode-2".data, "imdbid-0944947".data, "season-1".data,
          "sublanguageid-eng".data ]
    ∧ buildSearchParts "0944947".data "eng".data none none
      = [ "imdbid-0944947".data, "sublanguageid-eng".data ]
    ∧ searchSubtitles
        { imdbLookup := some "tt1".data,
          searchResp := fun _ => .error (),
          download := fun _ => .ok "x" } "tt1".data "eng".data none none = [] := by
  refine ⟨?_, ?_, ?_⟩
  · have h := searchQuery_spec.1 "0944947".data "eng".data 1 2
    simpa [natChars] using h
  · have h := searchQuery_spec.2.2.1 "0944947".data "eng".data (by decide)
    simpa using h
  · exact searchQuery_spec.2.2.2.2.2
      { imdbLookup := some "tt1".data,
        searchResp := fun _ => .error (),
        download := fun _ => .ok "x" } "tt1".data "eng".data none none rfl

/-! ## C7: saved-items resolver -/

/-- C7: the per-identifier resolver probes the movie endpoint first; on a
thrown movie failure it probes the series endpoint with the series `name`
remapped onto `title`; a failure of both silently drops the identifier; the
resolver is a total function of its oracle (it can never throw), and the
resolved list is never longer than the saved-identifier list. -/
theorem fetchMyList_resolver (env : TmdbEnv) :
    (∀ (id : ℤ) (m : TmdbItem), env.movieLookup id = .ok (some m) →
        resolveSavedId env id = some { m with media_type := some "movie" })
    ∧ (∀ (id : ℤ) (t : TmdbItem), env.movieLookup id = .error () →
        env.tvLookup id = .ok (some t) →
        resolveSavedId env id = some { t with title := t.name, media_type := some "tv" })
    ∧ (∀ id : ℤ, env.movieLookup id = .error () → env.tvLookup id = .error () →
        resolveSavedId env id = none)
    ∧ (∀ savedIds : List ℤ, env.myListJson = .ok (some savedIds) →
        (fetchMyList env).length ≤ savedIds.length) := by
  refine ⟨?_, ?_, ?_, ?_⟩
  · intro id m h
    simp [resolveSavedId, h]
  · intro id t hm ht
    simp [resolveSavedId, hm, ht]
  · intro id hm ht
    simp [resolveSavedId, hm, ht]
  · intro savedIds h
    simp only [fetchMyList, h]
    calc ((savedIds.map (resolveSavedId env)).reduceOption).length
        ≤ (savedIds.map (resolveSavedId env)).length := List.reduceOption_length_le _
      _ = savedIds.length := List.length_map _ _

/-- A concrete environment for exercising the saved-items resolver: id 1 is a
movie, id 2 only a series, id 3 neither. -/
def myListWitnessEnv : TmdbEnv where
  getEndpoints := fun _ => { hero := "h", priority := [], lazyFeeds := [] }
  pageSize := 20
  myListJson := .ok (some [1, 2, 3])
  movieLookup := fun id => if id = 1 then .ok (some { id := 1, title := some "M" }) else .error ()
  tvLookup := fun id => if id = 2 then .ok (some { id := 2, name := some "S" }) else .error ()
  feed := fun _ => .ok []

/-- C7 witness: a concrete store where one id resolves as a movie, one falls
back to a series (with `name` remapped to `title`), and one fails both probes
and drops; the result length is `2 ≤ 3`. -/
theorem fetchMyList_resolver_witness :
    resolveSavedId myListWitnessEnv 1
        = some { id := 1, title := some "M", media_type := some "movie" }
    ∧ resolveSavedId myListWitnessEnv 2
        = some { id := 2, title := some "S", name := some "S", media_type := some "tv" }
    ∧ resolveSavedId myListWitnessEnv 3 = none
    ∧ (fetchMyList myListWitnessEnv).length ≤ 3 := by
  have h := fetchMyList_resolver myListWitnessEnv
  refine ⟨h.1 1 { id := 1, title := some "M" } rfl, ?_, h.2.2.1 3 rfl rfl, ?_⟩
  · have := h.2.1 2 { id := 2, name := some "S" } rfl rfl
    simpa using this
  · exact h.2.2.2 [1, 2, 3] rfl

/-! ## C6: hero selection

The claim's first tier demands backdrop, poster, rating above 6 *and a valid
kind*; the source's first tier (`findBestHeroItem`) also accepts an item
whose `media_type` is unrecognized as long as it carries a `title` or `name`.
The two disagree on lists whose earliest high-rated complete item has a title
but no recognized kind. -/

/-- Hero selection exactly as claim C6 words it: first item with backdrop,
poster, rating strictly above 6 and a valid kind; else first item with
backdrop and poster; else the first item; else empty. -/
def claimSelectHero (items : List TmdbItem) : Option TmdbItem :=
  match items.find? (fun item =>
      truthy item.backdrop_path && truthy item.poster_path
        && voteGt6 item.vote_average
        && (item.media_type == some "movie" || item.media_type == some "tv")) with
  | some x => some x
  | none =>
      match items.find? (fun item => truthy item.backdrop_path && truthy item.poster_path) with
      | some x => some x
      | none => items.head?

/-- Hero selection as claim C6 must be amended: the first tier accepts a
recognized kind *or* a present title/name, matching the filter's validity
test; the other tiers are unchanged. -/
def claimSelectHeroAmended (items : List TmdbItem) : Option TmdbItem :=
  match items.find? (fun item =>
      truthy item.backdrop_path && truthy item.poster_path
        && voteGt6 item.vote_average
        && (item.media_type == some "movie" || item.media_type == some "tv"
            || truthy item.title || truthy item.name)) with
  | some x => some x
  | none =>
      match items.find? (fun item => truthy item.backdrop_path && truthy item.poster_path) with
      | some x => some x
      | none => items.head?

/-- An item with complete images, rating 7, a title, but no recognized
media type: the source's first tier accepts it, the claim's does not. -/
def heroCexTitled : TmdbItem :=
  { id := 1, poster_path := some "p", backdrop_path := some "b",
    title := some "T", vote_average := some 7 }

/-- An item with complete images, rating 7 and a recognized media type. -/
def heroCexKinded : TmdbItem :=
  { id := 2, poster_path := some "p", backdrop_path := some "b",
    media_type := some "movie", vote_average := some 7 }

/-- C6 counterexample: on `[heroCexTitled, heroCexKinded]` the code returns
the first item (title but no recognized kind), while the claim's exact
three-tier rule returns the second; so the claim as stated fails on the
code. -/
theorem findBestHeroItem_kind_cex :
    findBestHeroItem [heroCexTitled, heroCexKinded] = some heroCexTitled
    ∧ claimSelectHero [heroCexTitled, heroCexKinded] = some heroCexKinded
    ∧ findBestHeroItem [heroCexTitled, heroCexKinded]
        ≠ claimSelectHero [heroCexTitled, heroCexKinded] := by
  refine ⟨by decide, by decide, by decide⟩

/-- C6 amended: hero selection follows the three-tier fallback whose first
tier requires backdrop, poster, rating strictly above 6 and a recognized kind
*or a present title/name*; otherwise the first item with backdrop and poster
regardless of rating; otherwise the first item unconditionally; empty input
gives an empty result.  In particular an item with rating 7 and complete
images is selected over an earlier complete-image item with rating 4, and the
empty list yields `none`. -/
theorem findBestHeroItem_threeTier :
    (∀ items : List TmdbItem, findBestHeroItem items = claimSelectHeroAmended items)
    ∧ findBestHeroItem
        [ { id := 3, poster_path := some "p", backdrop_path := some "b",
            media_type := some "movie", vote_average := some 4 },
          { id := 4, poster_path := some "p", backdrop_path := some "b",
            media_type := some "movie", vote_average := some 7 } ]
        = some { id := 4, poster_path := some "p", backdrop_path := some "b",
                 media_type := some "movie", vote_average := some 7 }
    ∧ findBestHeroItem [] = none := by
  refine ⟨?_, by decide, by decide⟩
  intro items
  have e1 : (fun item : TmdbItem =>
      truthy item.backdrop_path && truthy item.poster_path
        && voteGt6 item.vote_average
        && (item.media_type == some "movie" || item.media_type == some "tv"
            || truthy item.title || truthy item.name)) = heroTier1 := rfl
  have e2 : (fun item : TmdbItem =>
      truthy item.backdrop_path && truthy item.poster_path) = heroTier2 := rfl
  simp only [findBestHeroItem, claimSelectHeroAmended, e1, e2]
  cases h1 : items.find? heroTier1 with
  | some x => simp [Option.orElse]
  | none =>
      cases h2 : items.find? heroTier2 with
      | some x => simp [Option.orElse]
      | none => simp [Option.orElse]

/-! ## Helper lemmas about `fetchContent` -/

theorem filterValid_length_le (pageSize : ℕ) (items : List TmdbItem) :
    (filterValidItems pageSize items).length ≤ pageSize := by
  simp only [filterValidItems, List.length_take]
  exact min_le_left _ _

theorem filterValid_valid {pageSize : ℕ} {items : List TmdbItem} {x : TmdbItem}
    (hx : x ∈ filterValidItems pageSize items) : isValidItem x = true :=
  (List.mem_filter.mp (List.mem_of_mem_take hx)).2

theorem fetchContent_ok_elim {env : TmdbEnv} {type : MediaType} {m : HomeModel}
    (h : fetchContent env type = .ok m) :
    ∃ heroResults categoryResponses,
      env.feed (env.getEndpoints type).hero = .ok heroResults
      ∧ promiseAll ((env.getEndpoints type).priority.map (fun ep => env.feed ep.url))
          = .ok categoryResponses
      ∧ m = { heroItem := findBestHeroItem heroResults
              categories := assembledCategories env type categoryResponses } := by
  simp only [fetchContent] at h
  cases hh : env.feed (env.getEndpoints type).hero with
  | error e => rw [hh] at h; cases h
  | ok heroResults =>
      rw [hh] at h
      cases hp : promiseAll ((env.getEndpoints type).priority.map (fun ep => env.feed ep.url)) with
      | error e => rw [hp] at h; cases h
      | ok categoryResponses =>
          rw [hp] at h
          refine ⟨heroResults, categoryResponses, rfl, rfl, ?_⟩
          injection h with h2
          exact h2.symm

/-- Every category of a successful `fetchContent` is the synthesized
`My List` category (with the resolved items passed through untouched), a
priority category (with filtered, truncated items), or a lazy placeholder. -/
theorem fetchContent_categories_cases {env : TmdbEnv} {type : MediaType} {m : HomeModel}
    (h : fetchContent env type = .ok m) :
    ∀ c ∈ m.categories,
      (c.title = "My List" ∧ c.items = fetchMyList env ∧ c.loading = false
        ∧ type = MediaType.all ∧ 0 < (fetchMyList env).length)
      ∨ (∃ ep ∈ (env.getEndpoints type).priority,
          c.title = ep.title ∧ c.items.length ≤ env.pageSize
          ∧ ∀ x ∈ c.items, isValidItem x = true)
      ∨ (∃ ep ∈ (env.getEndpoints type).lazyFeeds, c.title = ep.title ∧ c.items = []) := by
  obtain ⟨heroResults, categoryResponses, _, _, rfl⟩ := fetchContent_ok_elim h
  intro c hc
  simp only [assembledCategories, List.append_assoc, List.mem_append] at hc
  have hprio : ∀ pr ∈ (env.getEndpoints type).priority.zip categoryResponses,
      c = ({ title := pr.1.title, items := filterValidItems env.pageSize pr.2,
             loading := false } : Category) →
      ∃ ep ∈ (env.getEndpoints type).priority,
        c.title = ep.title ∧ c.items.length ≤ env.pageSize
        ∧ ∀ x ∈ c.items, isValidItem x = true := by
    intro pr hpr hceq
    refine ⟨pr.1, (List.of_mem_zip hpr).1, ?_, ?_, ?_⟩
    · rw [hceq]
    · rw [hceq]; exact filterValid_length_le _ _
    · intro x hx; rw [hceq] at hx; exact filterValid_valid hx
  rcases hc with hc | hc | hc | hc
  · -- first priority category
    obtain ⟨pr, hpr, hceq⟩ := List.mem_map.mp (List.mem_of_mem_take hc)
    exact Or.inr (Or.inl (hprio pr hpr hceq.symm))
  · -- synthesized My List category
    by_cases hcond : 0 < (fetchMyList env).length ∧ type = MediaType.all
    · rw [if_pos hcond] at hc
      simp only [List.mem_singleton] at hc
      subst hc
      exact Or.inl ⟨rfl, rfl, rfl, hcond.2, hcond.1⟩
    · rw [if_neg hcond] at hc
      cases hc
  · -- remaining priority categories
    obtain ⟨pr, hpr, hceq⟩ := List.mem_map.mp (List.mem_of_mem_drop hc)
    exact Or.inr (Or.inl (hprio pr hpr hceq.symm))
  · -- lazy placeholders
    obtain ⟨ep, hep, hceq⟩ := List.mem_map.mp hc
    exact Or.inr (Or.inr ⟨ep, hep, by rw [← hceq], by rw [← hceq]⟩)

/-- On the `all` tab with a non-empty saved-item resolution and a non-empty
priority table, the first two categories of a successful `fetchContent` are
the first priority category and the synthesized `My List` category. -/
theorem fetchContent_all_positions {env : TmdbEnv} {m : HomeModel}
    {p0 : EndpointDef} {ps : List EndpointDef}
    (h : fetchContent env .all = .ok m)
    (hp : (env.getEndpoints .all).priority = p0 :: ps)
    (hml : fetchMyList env ≠ []) :
    (∃ r0, env.feed p0.url = .ok r0
      ∧ m.categories[0]?
          = some (Category.mk p0.title (filterValidItems env.pageSize r0) false))
    ∧ m.categories[1]? = some (Category.mk "My List" (fetchMyList env) false) := by
  obtain ⟨heroResults, categoryResponses, _, hpa, rfl⟩ := fetchContent_ok_elim h
  rw [hp] at hpa
  cases categoryResponses with
  | nil =>
      have := promiseAll_ok_length hpa
      simp at this
  | cons r0 rs =>
      have hr0 : env.feed p0.url = .ok r0 := by
        simp only [List.map_cons, promiseAll] at hpa
        cases hfe : env.feed p0.url with
        | error e => rw [hfe] at hpa; cases hpa
        | ok a =>
            rw [hfe] at hpa
            cases hrec : promiseAll (ps.map fun ep => env.feed ep.url) with
            | error e => rw [hrec] at hpa; cases hpa
            | ok rest => rw [hrec] at hpa; cases hpa; rfl
      have hpos : 0 < (fetchMyList env).length := List.length_pos.mpr hml
      refine ⟨⟨r0, hr0, ?_⟩, ?_⟩ <;>
        simp [assembledCategories, hp, hpos]

/-! ## C5: all-or-nothing home batch -/

/-- C5: `fetchContent` fails (propagating a fault, with no partial home model)
exactly when the hero feed or some priority feed fails; the saved-items
resolution is a total function of its oracle and can never fail the batch. -/
theorem fetchContent_allOrNothing (env : TmdbEnv) (type : MediaType) :
    fetchContent env type = .error ()
      ↔ env.feed (env.getEndpoints type).hero = .error ()
        ∨ ∃ ep ∈ (env.getEndpoints type).priority, env.feed ep.url = .error () := by
  simp only [fetchContent]
  cases hh : env.feed (env.getEndpoints type).hero with
  | error e =>
      cases e
      simp
  | ok heroResults =>
      cases hp : promiseAll ((env.getEndpoints type).priority.map (fun ep => env.feed ep.url)) with
      | error e =>
          cases e
          constructor
          · intro _
            obtain ⟨x, hx, hxe⟩ := (promiseAll_error_iff _).mp hp
            obtain ⟨ep, hep, rfl⟩ := List.mem_map.mp hx
            exact Or.inr ⟨ep, hep, hxe⟩
          · intro _; rfl
      | ok categoryResponses =>
          constructor
          · intro hfc; cases hfc
          · rintro (herr | ⟨ep, hep, herr⟩)
            · exact Except.noConfusion herr
            · exfalso
              have hpe : promiseAll ((env.getEndpoints type).priority.map (fun ep => env.feed ep.url))
                  = .error () :=
                (promiseAll_error_iff _).mpr ⟨_, List.mem_map.mpr ⟨ep, hep, rfl⟩, herr⟩
              rw [hp] at hpe
              exact Except.noConfusion hpe

/-! ## C4: `My List` placement -/

/-- C4: on the `all` tab with a non-empty saved-item resolution, the category
at position 1 is the synthesized `My List` category, immediately after the
first priority category; on the `movie` and `tv` tabs no category titled
`My List` ever appears (given that, as the spec describes, `My List` is a
synthesized title and not a configured feed title). -/
theorem fetchContent_myList_placement :
    (∀ (env : TmdbEnv) (m : HomeModel) (p0 : EndpointDef) (ps : List EndpointDef),
      fetchContent env .all = .ok m →
      (env.getEndpoints .all).priority = p0 :: ps →
      fetchMyList env ≠ [] →
      m.categories[1]? = some (Category.mk "My List" (fetchMyList env) false)
      ∧ ∃ c0, m.categories[0]? = some c0 ∧ c0.title = p0.title)
    ∧ (∀ (env : TmdbEnv) (type : MediaType) (m : HomeModel), type ≠ MediaType.all →
      fetchContent env type = .ok m →
      (∀ ep ∈ (env.getEndpoints type).priority, ep.title ≠ "My List") →
      (∀ ep ∈ (env.getEndpoints type).lazyFeeds, ep.title ≠ "My List") →
      ∀ c ∈ m.categories, c.title ≠ "My List") := by
  constructor
  · intro env m p0 ps h hp hml
    obtain ⟨⟨r0, hr0, h0⟩, h1⟩ := fetchContent_all_positions h hp hml
    exact ⟨h1, ⟨_, h0, rfl⟩⟩
  · intro env type m htype h hprio hlazy c hc
    rcases fetchContent_categories_cases h c hc with
        ⟨_, _, _, hall, _⟩ | ⟨ep, hep, ht, _⟩ | ⟨ep, hep, ht, _⟩
    · exact absurd hall htype
    · rw [ht]; exact hprio ep hep
    · rw [ht]; exact hlazy ep hep

/-- A concrete environment for the `My List` placement: two priority feeds,
one lazy feed, one saved id resolving as a movie. -/
def placementWitnessEnv : TmdbEnv where
  getEndpoints := fun t =>
    match t with
    | .all => { hero := "h", priority := [⟨"Trending", "t"⟩, ⟨"Top", "u"⟩],
                lazyFeeds := [⟨"LazyCat", "l"⟩] }
    | _ => { hero := "h", priority := [⟨"Trending", "t"⟩], lazyFeeds := [] }
  pageSize := 20
  myListJson := .ok (some [1])
  movieLookup := fun id => if id = 1 then .ok (some { id := 1, title := some "M" }) else .error ()
  tvLookup := fun _ => .error ()
  feed := fun _ => .ok []

/-- The home model `fetchContent` produces on `placementWitnessEnv`. -/
def placementWitnessModel : HomeModel where
  heroItem := none
  categories :=
    [ Category.mk "Trending" [] false,
      Category.mk "My List" [{ id := 1, media_type := some "movie", title := some "M" }] false,
      Category.mk "Top" [] false,
      Category.mk "LazyCat" [] true ]

/-- C4 witness: a concrete `all`-tab run placing `My List` at position 1
after `Trending`, and a concrete `movie`-tab run with a resolved saved item
but no `My List` category anywhere. -/
theorem fetchContent_myList_placement_witness :
    fetchContent placementWitnessEnv .all = .ok placementWitnessModel
    ∧ placementWitnessModel.categories[1]?
        = some (Category.mk "My List" (fetchMyList placementWitnessEnv) false)
    ∧ (placementWitnessModel.categories[0]?).map Category.title = some "Trending"
    ∧ fetchContent placementWitnessEnv .movie
        = .ok { heroItem := none, categories := [Category.mk "Trending" [] false] } := by
  have hall : fetchContent placementWitnessEnv .all = .ok placementWitnessModel := by rfl
  have h1 := (fetchContent_myList_placement).1 placementWitnessEnv placementWitnessModel
    ⟨"Trending", "t"⟩ [⟨"Top", "u"⟩] hall (by decide) (by decide)
  refine ⟨hall, h1.1, ?_, by rfl⟩
  obtain ⟨c0, hc0, hct⟩ := h1.2
  rw [hc0]
  simp [hct]

/-! ## C10: the `My List` category bypasses `filterValidItems` -/

/-- C10: in a successful `all`-tab home model the synthesized `My List`
category carries exactly the resolved saved items, not passed through
`filterValidItems`, while every category not titled `My List` is truncated to
the page size and holds only items with truthy poster and backdrop. -/
theorem myList_bypasses_filter :
    ∀ (env : TmdbEnv) (m : HomeModel) (p0 : EndpointDef) (ps : List EndpointDef),
      fetchContent env .all = .ok m →
      (env.getEndpoints .all).priority = p0 :: ps →
      fetchMyList env ≠ [] →
      m.categories[1]? = some (Category.mk "My List" (fetchMyList env) false)
      ∧ (∀ c ∈ m.categories, c.title ≠ "My List" →
          c.items.length ≤ env.pageSize
          ∧ ∀ x ∈ c.items, truthy x.poster_path = true ∧ truthy x.backdrop_path = true) := by
  intro env m p0 ps h hp hml
  refine ⟨(fetchContent_all_positions h hp hml).2, ?_⟩
  intro c hc hct
  rcases fetchContent_categories_cases h c hc with
      ⟨ht, _⟩ | ⟨ep, hep, ht, hlen, hval⟩ | ⟨ep, hep, ht, hitems⟩
  · exact absurd ht hct
  · refine ⟨hlen, ?_⟩
    intro x hx
    have hv := hval x hx
    simp only [isValidItem, Bool.and_eq_true] at hv
    exact ⟨hv.1.1, hv.1.2⟩
  · rw [hitems]
    exact ⟨by simp, by simp⟩

/-- A concrete environment showing the bypass: page size 0, a saved item with
no poster or backdrop, and a priority feed whose (valid) item is nevertheless
truncated away. -/
def bypassWitnessEnv : TmdbEnv where
  getEndpoints := fun _ => { hero := "h", priority := [⟨"Trending", "t"⟩], lazyFeeds := [] }
  pageSize := 0
  myListJson := .ok (some [7])
  movieLookup := fun id =>
    if id = 7 then .ok (some { id := 7, title := some "NoImages" }) else .error ()
  tvLookup := fun _ => .error ()
  feed := fun _ =>
    .ok [ { id := 9, poster_path := some "p", backdrop_path := some "b",
            media_type := some "movie" } ]

/-- The home model `fetchContent` produces on `bypassWitnessEnv`: the
`My List` category keeps its posterless item and exceeds the page size 0,
while the priority category is truncated to 0 items. -/
def bypassWitnessModel : HomeModel where
  heroItem := some { id := 9, poster_path := some "p", backdrop_path := some "b",
                     media_type := some "movie" }
  categories :=
    [ Category.mk "Trending" [] false,
      Category.mk "My List" [{ id := 7, media_type := some "movie", title := some "NoImages" }] false ]

/-- C10 witness: the concrete bypass run; `My List` holds one item without
poster or backdrop, exceeding the page size 0 that empties the priority
category. -/
theorem myList_bypasses_filter_witness :
    fetchContent bypassWitnessEnv .all = .ok bypassWitnessModel
    ∧ bypassWitnessModel.categories[1]?
        = some (Category.mk "My List" (fetchMyList bypassWitnessEnv) false)
    ∧ (fetchMyList bypassWitnessEnv).length = 1
    ∧ truthy ((fetchMyList bypassWitnessEnv).getD 0 default).poster_path = false
    ∧ (bypassWitnessModel.categories[0]?).map (fun c => c.items.length) = some 0 := by
  have hall : fetchContent bypassWitnessEnv .all = .ok bypassWitnessModel := by rfl
  have h := myList_bypasses_filter bypassWitnessEnv bypassWitnessModel
    ⟨"Trending", "t"⟩ [] hall (by decide) (by decide)
  exact ⟨hall, h.1, by decide, by decide, by decide⟩

/-! ## C3: out-of-range subtitle index clamping -/

/-- C3: for a non-empty candidate list and any requested zero-based index at
or beyond its length, `getSubtitles` clamps the selection to the last valid
index `n - 1` instead of erroring: on the download path it succeeds with
`currentIndex = n - 1` and the last sorted candidate's release name. -/
theorem getSubtitles_clampsIndex
    (env : SubtitleEnv) (params : SubtitleSearchParams) (i : ℕ)
    (imdbId : List Char) (results sorted : List OpenSubtitlesResponse) (srt : String)
    (himdb : env.imdbLookup = some imdbId)
    (hres : searchSubtitles env imdbId params.language params.season params.episode = results)
    (hsort : sortSubtitles results (params.sortBy.getD .smart) = sorted)
    (hne : results ≠ [])
    (hidx : results.length ≤ i)
    (hlink : (sorted.getD (results.length - 1) default).SubDownloadLink ≠ [])
    (hdl : env.download (sorted.getD (results.length - 1) default).SubDownloadLink = .ok srt) :
    getSubtitles env params i
      = { success := true
          srtContent := some srt
          totalAvailable := some results.length
          currentIndex := some (results.length - 1)
          releaseName := some ((sorted.getD (results.length - 1) default).MovieName) } := by
  have hlen : sorted.length = results.length := by
    rw [← hsort]; exact sortSubtitles_length _ _
  have h0 : ¬ results.length = 0 := fun h => hne (List.length_eq_zero.mp h)
  have hmin : min i (sorted.length - 1) = results.length - 1 := by
    rw [hlen]
    exact min_eq_right (le_trans (Nat.sub_le _ _) hidx)
  simp only [getSubtitles, himdb, hres, hsort, hmin, if_neg h0]
  rw [if_neg hlink]
  simp only [downloadAndDecompressSubtitle, hdl, hlen]

/-- Three candidates with identical scores and distinct names and links. -/
def clampSubA : OpenSubtitlesResponse :=
  { SubDownloadLink := "l1".data, MovieName := "A".data, SubDownloadsCnt := "0".data }

def clampSubB : OpenSubtitlesResponse :=
  { SubDownloadLink := "l2".data, MovieName := "B".data, SubDownloadsCnt := "0".data }

def clampSubC : OpenSubtitlesResponse :=
  { SubDownloadLink := "l3".data, MovieName := "C".data, SubDownloadsCnt := "0".data }

/-- A concrete subtitle environment with a 3-candidate search result. -/
def clampWitnessEnv : SubtitleEnv where
  imdbLookup := some "tt5".data
  searchResp := fun _ => .ok (some [clampSubA, clampSubB, clampSubC])
  download := fun _ => .ok "1\n00:00:01,000 --> 00:00:02,000\nHi\n"

def clampWitnessParams : SubtitleSearchParams :=
  { tmdbId := 1, language := "eng".data, mediaType := .movie }

/-- The score of a candidate with no release-name signals and zero parsed
downloads is zero. -/
theorem score_plain (c : OpenSubtitlesResponse)
    (h1 : releasePoints (lowerStr c.MovieName) = 0) (h2 : downloadsOf c = 0) :
    scoreSubtitleForStreaming c = 0 := by
  simp [scoreSubtitleForStreaming, popularityBonus, h1, h2]

/-- C3 witness: requesting index 99 against a 3-candidate sorted list selects
the candidate at index 2 and reports `currentIndex = 2`. -/
theorem getSubtitles_clampsIndex_witness :
    getSubtitles clampWitnessEnv clampWitnessParams 99
      = { success := true
          srtContent := some "1\n00:00:01,000 --> 00:00:02,000\nHi\n"
          totalAvailable := some 3
          currentIndex := some 2
          releaseName := some "C".data } := by
  have hsA := score_plain clampSubA (by decide) (by decide)
  have hsB := score_plain clampSubB (by decide) (by decide)
  have hsC := score_plain clampSubC (by decide) (by decide)
  have hsort : sortSubtitles [clampSubA, clampSubB, clampSubC]
      (clampWitnessParams.sortBy.getD .smart) = [clampSubA, clampSubB, clampSubC] := by
    simp [clampWitnessParams, sortSubtitles, List.insertionSort, List.orderedInsert,
      hsA, hsB, hsC]
  have h := getSubtitles_clampsIndex clampWitnessEnv clampWitnessParams 99 "tt5".data
    [clampSubA, clampSubB, clampSubC] [clampSubA, clampSubB, clampSubC]
    "1\n00:00:01,000 --> 00:00:02,000\nHi\n"
    rfl rfl hsort (by decide) (by decide) (by decide) rfl
  rw [h]
  decide

/-! ## C1: `getSubtitles` end-to-end result shape

`getSubtitles` is a total function of its oracle, so every terminal state is
a tagged `SubtitleResult`; the one internal throw (the download stage) is
modelled by the `.error` branch of the download oracle and is converted to
the failure shape.  The claim's demand that `srtContent` be *non-empty* on
the successful path is not enforced by the code: the payload is returned
verbatim, and an empty decompressed payload yields `success := true` with
`srtContent = some ""` (see the counterexample). -/

/-- After a successful id lookup and a non-empty search, `getSubtitles` is the
link-check / download tail. -/
theorem getSubtitles_tail (env : SubtitleEnv) (params : SubtitleSearchParams)
    (i : ℕ) (imdbId : List Char) (results : List OpenSubtitlesResponse)
    (himdb : env.imdbLookup = some imdbId)
    (hres : searchSubtitles env imdbId params.language params.season params.episode = results)
    (hne : results ≠ []) :
    getSubtitles env params i =
      (let sel := (sortSubtitles results (params.sortBy.getD .smart)).getD
          (min i (results.length - 1)) default
       if sel.SubDownloadLink = [] then
         { success := false, error := some "No download link available" }
       else
         match downloadAndDecompressSubtitle env sel.SubDownloadLink with
         | .error msg => { success := false, error := some msg }
         | .ok srt =>
             { success := true, srtContent := some srt
               totalAvailable := some results.length
               currentIndex := some (min i (results.length - 1))
               releaseName := some sel.MovieName }) := by
  have hlen := sortSubtitles_length results (params.sortBy.getD .smart)
  simp only [getSubtitles, himdb, hres, hlen]
  rw [if_neg (fun h => hne (List.length_eq_zero.mp h))]

/-- C1 (amended): every terminal state of `getSubtitles` is a tagged result:
missing external id, empty search, missing download link and download faults
each produce the claimed `{success := false, error := ...}` shape, any failure
carries an error message, and the successful path returns `success := true`
with `srtContent` exactly the downloaded payload (possibly empty) and
`totalAvailable ≥ 1`. -/
theorem getSubtitles_tagged (env : SubtitleEnv) (params : SubtitleSearchParams) (i : ℕ) :
    (env.imdbLookup = none →
      getSubtitles env params i
        = { success := false, error := some "Could not find IMDB ID for this title" })
    ∧ (∀ imdbId, env.imdbLookup = some imdbId →
        searchSubtitles env imdbId params.language params.season params.episode = [] →
        getSubtitles env params i
          = { success := false, error := some "No subtitles found for this title" })
    ∧ (∀ imdbId results, env.imdbLookup = some imdbId →
        searchSubtitles env imdbId params.language params.season params.episode = results →
        results ≠ [] →
        ((sortSubtitles results (params.sortBy.getD .smart)).getD
            (min i (results.length - 1)) default).SubDownloadLink = [] →
        getSubtitles env params i
          = { success := false, error := some "No download link available" })
    ∧ (∀ imdbId results msg, env.imdbLookup = some imdbId →
        searchSubtitles env imdbId params.language params.season params.episode = results →
        results ≠ [] →
        ((sortSubtitles results (params.sortBy.getD .smart)).getD
            (min i (results.length - 1)) default).SubDownloadLink ≠ [] →
        env.download ((sortSubtitles results (params.sortBy.getD .smart)).getD
            (min i (results.length - 1)) default).SubDownloadLink = .error msg →
        getSubtitles env params i
          = { success := false, error := some ("Failed to download subtitle: " ++ msg) })
    ∧ (∀ imdbId results srt, env.imdbLookup = some imdbId →
        searchSubtitles env imdbId params.language params.season params.episode = results →
        results ≠ [] →
        ((sortSubtitles results (params.sortBy.getD .smart)).getD
            (min i (results.length - 1)) default).SubDownloadLink ≠ [] →
        env.download ((sortSubtitles results (params.sortBy.getD .smart)).getD
            (min i (results.length - 1)) default).SubDownloadLink = .ok srt →
        getSubtitles env params i
          = { success := true, srtContent := some srt
              totalAvailable := some results.length
              currentIndex := some (min i (results.length - 1))
              releaseName := some (((sortSubtitles results (params.sortBy.getD .smart)).getD
                  (min i (results.length - 1)) default).MovieName) }
          ∧ 1 ≤ results.length)
    ∧ ((getSubtitles env params i).success = false →
        ((getSubtitles env params i).error).isSome = true) := by
  have h1 : env.imdbLookup = none →
      getSubtitles env params i
        = { success := false, error := some "Could not find IMDB ID for this title" } := by
    intro h
    simp [getSubtitles, h]
  have h2 : ∀ imdbId, env.imdbLookup = some imdbId →
      searchSubtitles env imdbId params.language params.season params.episode = [] →
      getSubtitles env params i
        = { success := false, error := some "No subtitles found for this title" } := by
    intro imdbId himdb hres
    simp [getSubtitles, himdb, hres]
  have h3 : ∀ imdbId results, env.imdbLookup = some imdbId →
      searchSubtitles env imdbId params.language params.season params.episode = results →
      results ≠ [] →
      ((sortSubtitles results (params.sortBy.getD .smart)).getD
          (min i (results.length - 1)) default).SubDownloadLink = [] →
      getSubtitles env params i
        = { success := false, error := some "No download link available" } := by
    intro imdbId results himdb hres hne hlink
    rw [getSubtitles_tail env params i imdbId results himdb hres hne]
    exact if_pos hlink
  have h4 : ∀ imdbId results msg, env.imdbLookup = some imdbId →
      searchSubtitles env imdbId params.language params.season params.episode = results →
      results ≠ [] →
      ((sortSubtitles results (params.sortBy.getD .smart)).getD
          (min i (results.length - 1)) default).SubDownloadLink ≠ [] →
      env.download ((sortSubtitles results (params.sortBy.getD .smart)).getD
          (min i (results.length - 1)) default).SubDownloadLink = .error msg →
      getSubtitles env params i
        = { success := false, error := some ("Failed to download subtitle: " ++ msg) } := by
    intro imdbId results msg himdb hres hne hlink hdl
    rw [getSubtitles_tail env params i imdbId results himdb hres hne]
    rw [if_neg hlink]
    simp only [downloadAndDecompressSubtitle, hdl]
  have h5 : ∀ imdbId results srt, env.imdbLookup = some imdbId →
      searchSubtitles env imdbId params.language params.season params.episode = results →
      results ≠ [] →
      ((sortSubtitles results (params.sortBy.getD .smart)).getD
          (min i (results.length - 1)) default).SubDownloadLink ≠ [] →
      env.download ((sortSubtitles results (params.sortBy.getD .smart)).getD
          (min i (results.length - 1)) default).SubDownloadLink = .ok srt →
      getSubtitles env params i
        = { success := true, srtContent := some srt
            totalAvailable := some results.length
            currentIndex := some (min i (results.length - 1))
            releaseName := some (((sortSubtitles results (params.sortBy.getD .smart)).getD
                (min i (results.length - 1)) default).MovieName) } := by
    intro imdbId results srt himdb hres hne hlink hdl
    rw [getSubtitles_tail env params i imdbId results himdb hres hne]
    rw [if_neg hlink]
    simp only [downloadAndDecompressSubtitle, hdl]
  refine ⟨h1, h2, h3, h4,
    fun imdbId results srt himdb hres hne hlink hdl =>
      ⟨h5 imdbId results srt himdb hres hne hlink hdl,
        Nat.one_le_iff_ne_zero.mpr (fun h => hne (List.length_eq_zero.mp h))⟩, ?_⟩
  cases himdb : env.imdbLookup with
  | none =>
      rw [h1 himdb]
      intro _
      rfl
  | some imdbId =>
      by_cases hres0 : searchSubtitles env imdbId params.language params.season params.episode = []
      · rw [h2 imdbId himdb hres0]
        intro _
        rfl
      · by_cases hlink : ((sortSubtitles
            (searchSubtitles env imdbId params.language params.season params.episode)
            (params.sortBy.getD .smart)).getD
            (min i ((searchSubtitles env imdbId
              params.language params.season params.episode).length - 1))
            default).SubDownloadLink = []
        · rw [h3 imdbId _ himdb rfl hres0 hlink]
          intro _
          rfl
        · cases hdl : env.download ((sortSubtitles
              (searchSubtitles env imdbId params.language params.season params.episode)
              (params.sortBy.getD .smart)).getD
              (min i ((searchSubtitles env imdbId
                params.language params.season params.episode).length - 1))
              default).SubDownloadLink with
          | error msg =>
              rw [h4 imdbId _ msg himdb rfl hres0 hlink hdl]
              intro _
              rfl
          | ok srt =>
              rw [h5 imdbId _ srt himdb rfl hres0 hlink hdl]
              intro hfalse
              cases hfalse

/-- Parameters shared by the concrete `getSubtitles` runs below. -/
def c1Params : SubtitleSearchParams :=
  { tmdbId := 1, language := "eng".data, mediaType := .movie }

/-- A single plain candidate with a usable download link. -/
def c1Sub : OpenSubtitlesResponse :=
  { SubDownloadLink := "l".data, MovieName := "A".data, SubDownloadsCnt := "0".data }

/-- The downloaded payload is empty in this environment. -/
def emptyPayloadEnv : SubtitleEnv where
  imdbLookup := some "tt1".data
  searchResp := fun _ => .ok (some [c1Sub])
  download := fun _ => .ok ""

/-- C1 counterexample: the downloaded payload is returned verbatim, so the
successful path can yield `success := true` with an *empty* `srtContent`,
refuting the claim that the successful path always carries non-empty
`srtContent`. -/
theorem getSubtitles_emptyPayload_cex :
    (getSubtitles emptyPayloadEnv c1Params 0).success = true
    ∧ (getSubtitles emptyPayloadEnv c1Params 0).srtContent = some "" := by
  exact ⟨rfl, rfl⟩

def c1NoImdbEnv : SubtitleEnv where
  imdbLookup := none
  searchResp := fun _ => .ok (some [c1Sub])
  download := fun _ => .ok "x"

def c1NoResultsEnv : SubtitleEnv where
  imdbLookup := some "tt1".data
  searchResp := fun _ => .ok (some [])
  download := fun _ => .ok "x"

def c1NoLinkEnv : SubtitleEnv where
  imdbLookup := some "tt1".data
  searchResp := fun _ =>
    .ok (some [{ SubDownloadLink := [], MovieName := "A".data, SubDownloadsCnt := "0".data }])
  download := fun _ => .ok "x"

def c1DlFailEnv : SubtitleEnv where
  imdbLookup := some "tt1".data
  searchResp := fun _ => .ok (some [c1Sub])
  download := fun _ => .error "boom"

def c1OkEnv : SubtitleEnv where
  imdbLookup := some "tt1".data
  searchResp := fun _ => .ok (some [c1Sub])
  download := fun _ => .ok "SRT"

/-- C1 witness: one concrete run through each terminal state. -/
theorem getSubtitles_tagged_witness :
    getSubtitles c1NoImdbEnv c1Params 0
      = { success := false, error := some "Could not find IMDB ID for this title" }
    ∧ getSubtitles c1NoResultsEnv c1Params 0
      = { success := false, error := some "No subtitles found for this title" }
    ∧ getSubtitles c1NoLinkEnv c1Params 0
      = { success := false, error := some "No download link available" }
    ∧ getSubtitles c1DlFailEnv c1Params 0
      = { success := false, error := some "Failed to download subtitle: boom" }
    ∧ getSubtitles c1OkEnv c1Params 0
      = { success := true, srtContent := some "SRT", totalAvailable := some 1
          currentIndex := some 0, releaseName := some "A".data } := by
  refine ⟨(getSubtitles_tagged c1NoImdbEnv c1Params 0).1 rfl,
    (getSubtitles_tagged c1NoResultsEnv c1Params 0).2.1 "tt1".data rfl rfl,
    (getSubtitles_tagged c1NoLinkEnv c1Params 0).2.2.1 "tt1".data
      [{ SubDownloadLink := [], MovieName := "A".data, SubDownloadsCnt := "0".data }]
      rfl rfl (by decide) (by rfl),
    (getSubtitles_tagged c1DlFailEnv c1Params 0).2.2.2.1 "tt1".data [c1Sub] "boom"
      rfl rfl (by decide) (by decide) rfl,
    ?_⟩
  have h := (getSubtitles_tagged c1OkEnv c1Params 0).2.2.2.2.1 "tt1".data [c1Sub] "SRT"
    rfl rfl (by decide) (by decide) rfl
  exact h.1

/-! ## C2 infrastructure: occurrences of a token across an inserted middle

To compare `releasePoints` on two names that differ only in one release tag
(`web-dl` versus `hdtv`), we show that for every other scoring token an
occurrence in `a ++ (mid ++ b)` can neither lie inside `mid` nor straddle its
boundaries, hence lies within `a` or within `b` — the same on both sides. -/

/-- An occurrence of `t` in `a ++ b` lies in `a`, lies in `b`, or straddles
the boundary, splitting `t` into a non-empty suffix-part of `a` and a
non-empty prefix-part of `b`. -/
theorem sideSplit {α : Type} {t a b : List α} (h : t <:+: a ++ b) :
    t <:+: a ∨ t <:+: b
    ∨ ∃ t1 t2, t1 ++ t2 = t ∧ t1 ≠ [] ∧ t2 ≠ [] ∧ t1 <:+ a ∧ t2 <+: b := by
  obtain ⟨u, v, huv⟩ := h
  have huv2 : u ++ (t ++ v) = a ++ b := by
    rw [← huv]; simp [List.append_assoc]
  rcases List.append_eq_append_iff.mp huv2 with ⟨k, hk1, hk2⟩ | ⟨k, hk1, hk2⟩
  · -- a = u ++ k and t ++ v = k ++ b
    rcases List.append_eq_append_iff.mp hk2 with ⟨j, hj1, hj2⟩ | ⟨j, hj1, hj2⟩
    · -- k = t ++ j and v = j ++ b : the occurrence lies in a
      exact Or.inl ⟨u, j, by rw [hk1, hj1]; simp [List.append_assoc]⟩
    · -- t = k ++ j and b = j ++ v
      rcases eq_or_ne k [] with rfl | hkne
      · -- t = j is a prefix of b
        refine Or.inr (Or.inl (List.IsPrefix.isInfix ⟨v, ?_⟩))
        rw [hj1, List.nil_append] at *
        rw [hj2]
      · rcases eq_or_ne j [] with rfl | hjne
        · -- t = k is a suffix of a
          refine Or.inl (List.IsSuffix.isInfix ⟨u, ?_⟩)
          rw [hk1, hj1, List.append_nil]
        · exact Or.inr (Or.inr ⟨k, j, hj1.symm, hkne, hjne, ⟨u, hk1.symm⟩, ⟨v, hj2.symm⟩⟩)
  · -- u = a ++ k and b = k ++ (t ++ v) : the occurrence lies in b
    exact Or.inr (Or.inl ⟨k, v, by rw [hk2]; simp [List.append_assoc]⟩)

/-- A prefix of `a ++ b` is a prefix of `a` or extends `a` by a prefix of `b`. -/
theorem frontSplit {α : Type} {t a b : List α} (h : t <+: a ++ b) :
    t <+: a ∨ ∃ t2, t = a ++ t2 ∧ t2 <+: b := by
  obtain ⟨v, hv⟩ := h
  rcases List.append_eq_append_iff.mp hv with ⟨k, hk1, hk2⟩ | ⟨k, hk1, hk2⟩
  · exact Or.inl ⟨k, hk1.symm⟩
  · exact Or.inr ⟨k, hk1, ⟨v, hk2.symm⟩⟩

/-- `t` cannot occur inside `m` nor straddle either of `m`'s boundaries:
`t` is not a sub-list of `m`, no proper non-empty front part of `t` is a
suffix of `m`, no proper non-empty back part of `t` is a prefix of `m`, and
`m` never sits properly inside `t`.  Decidable for concrete `t`, `m`. -/
def middleSafe (t m : List Char) : Prop :=
  (¬ t <:+: m)
  ∧ (∀ i, i < t.length → 0 < i → ¬ (t.take i <:+ m))
  ∧ (∀ i, i < t.length → 0 < i → ¬ (t.drop i <+: m))
  ∧ (∀ i, i < t.length → 0 < i → ¬ (m <+: t.drop i))

instance middleSafeDec (t m : List Char) : Decidable (middleSafe t m) := by
  unfold middleSafe
  infer_instance

/-- For a token `t` that is `middleSafe` for `m`, occurrences of `t` in
`a ++ (m ++ b)` are exactly the occurrences in `a` or in `b`. -/
theorem throughMiddle {t m : List Char} (hs : middleSafe t m) (a b : List Char) :
    t <:+: a ++ (m ++ b) ↔ t <:+: a ∨ t <:+: b := by
  obtain ⟨h1, h2, h3, h4⟩ := hs
  constructor
  · intro h
    rcases sideSplit h with ha | hmb | ⟨t1, t2, hsum, h1ne, h2ne, h1suf, h2pre⟩
    · exact Or.inl ha
    · rcases sideSplit hmb with hm | hb | ⟨s1, s2, hssum, hs1ne, hs2ne, hs1suf, hs2pre⟩
      · exact absurd hm h1
      · exact Or.inr hb
      · exfalso
        have htake : t.take s1.length = s1 := by rw [← hssum]; exact List.take_left _ _
        have hlt : s1.length < t.length := by
          rw [← hssum, List.length_append]
          have := List.length_pos.mpr hs2ne
          omega
        exact h2 s1.length hlt (List.length_pos.mpr hs1ne) (by rw [htake]; exact hs1suf)
    · have hdrop : t.drop t1.length = t2 := by rw [← hsum]; exact List.drop_left _ _
      have hlt : t1.length < t.length := by
        rw [← hsum, List.length_append]
        have := List.length_pos.mpr h2ne
        omega
      have hpos : 0 < t1.length := List.length_pos.mpr h1ne
      rcases frontSplit h2pre with h2m | ⟨t3, ht3, ht3b⟩
      · exact absurd (by rw [hdrop]; exact h2m) (h3 t1.length hlt hpos)
      · refine absurd ?_ (h4 t1.length hlt hpos)
        rw [hdrop, ht3]
        exact ⟨t3, rfl⟩
  · rintro (ha | hb)
    · obtain ⟨u, v, huv⟩ := ha
      exact ⟨u, v ++ (m ++ b), by rw [← huv]; simp [List.append_assoc]⟩
    · obtain ⟨u, v, huv⟩ := hb
      exact ⟨a ++ (m ++ u), v, by rw [← huv]; simp [List.append_assoc]⟩

/-- A `middleSafe` token is seen by `jsIncludes` identically through two
different safe middles. -/
theorem includesThroughMiddle {t m1 m2 : List Char}
    (hs1 : middleSafe t m1) (hs2 : middleSafe t m2) (a b : List Char) :
    jsIncludes (a ++ (m1 ++ b)) t = jsIncludes (a ++ (m2 ++ b)) t := by
  simp only [jsIncludes]
  exact decide_eq_decide.mpr (by rw [throughMiddle hs1 a b, throughMiddle hs2 a b])

/-! ## C2: WEB-DL versus HDTV scoring gap and popularity cap -/

/-- C2: two candidates identical except that one lowered release name carries
`web-dl` where the other carries `hdtv` (and neither carries the other's tag)
differ by at least 200 points before the popularity bonus; and the popularity
bonus is exactly `min(downloadCount / 10000, 30)`, hence never exceeds 30. -/
theorem scoring_webdl_vs_hdtv :
    (∀ (c1 c2 : OpenSubtitlesResponse) (a b : List Char),
      lowerStr c1.MovieName = a ++ (webdlTok ++ b) →
      lowerStr c2.MovieName = a ++ (hdtvTok ++ b) →
      ¬ (hdtvTok <:+: lowerStr c1.MovieName) →
      ¬ (webdlTok <:+: lowerStr c2.MovieName) →
      releasePoints (lowerStr c2.MovieName) + 200 ≤ releasePoints (lowerStr c1.MovieName))
    ∧ (∀ c : OpenSubtitlesResponse,
        scoreSubtitleForStreaming c
          = (releasePoints (lowerStr c.MovieName) : ℚ) + popularityBonus c
        ∧ popularityBonus c = min ((downloadsOf c : ℚ) / 10000) 30
        ∧ popularityBonus c ≤ 30) := by
  constructor
  · intro c1 c2 a b hn1 hn2 hh1 hw2
    rw [hn1] at hh1
    rw [hn2] at hw2
    rw [hn1, hn2]
    have hwd1 : jsIncludes (a ++ (webdlTok ++ b)) webdlTok = true := by
      simp only [jsIncludes, decide_eq_true_eq]
      exact ⟨a, b, by simp [List.append_assoc]⟩
    have hht2 : jsIncludes (a ++ (hdtvTok ++ b)) hdtvTok = true := by
      simp only [jsIncludes, decide_eq_true_eq]
      exact ⟨a, b, by simp [List.append_assoc]⟩
    have hht1 : jsIncludes (a ++ (webdlTok ++ b)) hdtvTok = false := by
      simp only [jsIncludes, decide_eq_false_iff_not]
      exact hh1
    have hwd2 : jsIncludes (a ++ (hdtvTok ++ b)) webdlTok = false := by
      simp only [jsIncludes, decide_eq_false_iff_not]
      exact hw2
    have eWebrip := includesThroughMiddle
      (by decide : middleSafe webripTok webdlTok) (by decide : middleSafe webripTok hdtvTok) a b
    have eWebdot := includesThroughMiddle
      (by decide : middleSafe webdotTok webdlTok) (by decide : middleSafe webdotTok hdtvTok) a b
    have eAmzn := includesThroughMiddle
      (by decide : middleSafe amznTok webdlTok) (by decide : middleSafe amznTok hdtvTok) a b
    have eNf := includesThroughMiddle
      (by decide : middleSafe nfTok webdlTok) (by decide : middleSafe nfTok hdtvTok) a b
    have eDsnp := includesThroughMiddle
      (by decide : middleSafe dsnpTok webdlTok) (by decide : middleSafe dsnpTok hdtvTok) a b
    have eBluray := includesThroughMiddle
      (by decide : middleSafe blurayTok webdlTok) (by decide : middleSafe blurayTok hdtvTok) a b
    have eBrrip := includesThroughMiddle
      (by decide : middleSafe brripTok webdlTok) (by decide : middleSafe brripTok hdtvTok) a b
    have eBdrip := includesThroughMiddle
      (by decide : middleSafe bdripTok webdlTok) (by decide : middleSafe bdripTok hdtvTok) a b
    have eDvdrip := includesThroughMiddle
      (by decide : middleSafe dvdripTok webdlTok) (by decide : middleSafe dvdripTok hdtvTok) a b
    have eHi := includesThroughMiddle
      (by decide : middleSafe hiTok webdlTok) (by decide : middleSafe hiTok hdtvTok) a b
    have eCc := includesThroughMiddle
      (by decide : middleSafe ccTok webdlTok) (by decide : middleSafe ccTok hdtvTok) a b
    simp only [releasePoints, hwd1, hht2, hht1, hwd2, ← eWebrip, ← eWebdot, ← eAmzn,
      ← eNf, ← eDsnp, ← eBluray, ← eBrrip, ← eBdrip, ← eDvdrip, ← eHi, ← eCc,
      if_true, if_false, Bool.false_eq_true, Bool.true_eq_false]
    omega
  · intro c
    exact ⟨rfl, rfl, min_le_right _ _⟩

def c2WebdlSub : OpenSubtitlesResponse :=
  { SubDownloadLink := "l1".data, MovieName := "Show.S01E01.WEB-DL.x264".data,
    SubDownloadsCnt := "350000".data }

def c2HdtvSub : OpenSubtitlesResponse :=
  { SubDownloadLink := "l2".data, MovieName := "Show.S01E01.HDTV.x264".data,
    SubDownloadsCnt := "350000".data }

/-- C2 witness: the concrete pair `Show.S01E01.WEB-DL.x264` versus
`Show.S01E01.HDTV.x264` has a release-point gap of at least 200, and the
popularity bonus of a 350000-download candidate is still at most 30. -/
theorem scoring_webdl_vs_hdtv_witness :
    releasePoints (lowerStr c2HdtvSub.MovieName) + 200
      ≤ releasePoints (lowerStr c2WebdlSub.MovieName)
    ∧ popularityBonus c2WebdlSub ≤ 30 := by
  refine ⟨scoring_webdl_vs_hdtv.1 c2WebdlSub c2HdtvSub
      "show.s01e01.".data ".x264".data (by decide) (by decide) (by decide) (by decide),
    (scoring_webdl_vs_hdtv.2 c2WebdlSub).2.2⟩

end LimeTV
